import Mathlib

/-!
Verification of the silent-printing agent.

The repository has two request handlers:
* an HTML handler (`server.post "/print"` in the Electron HTML variant):
  validates the `html` body field, resolves the configured printer by exact
  name against the enumerated device list, loads the payload as a percent
  encoded `data:` URL, injects a centering CSS overlay, measures the page
  height and dispatches a silent print job;
* a PDF handler (`server.post "/print"` in the PDF variant): validates the
  `pdfBase64` body field, chooses the printer from the body or the settings
  store, writes the decoded PDF to a temporary file, dispatches it and
  removes the temporary file.

Effectful steps (printer enumeration, the platform print callback, the
unlink call) are passed in as explicit parameters, so each handler becomes a
pure function of its request and of those externally determined outcomes.
-/

namespace SilentPrinting

/-- One enumerated printer as returned by `webContents.getPrintersAsync`. -/
structure Printer where
  name : String
  isDefault : Bool
deriving DecidableEq, Repr

/-- JavaScript truthiness test for an optional string field of the request
body or of the settings store: `undefined` and `""` are falsy. -/
def isFalsyOpt : Option String → Bool
  | none => true
  | some s => s == ""

/-- JavaScript `a || b` on an optional string `a`: the default is taken
when `a` is `undefined` or the empty string. -/
def jsOrStr : Option String → String → String
  | none, d => d
  | some s, d => if s == "" then d else s

/-- `printers.find(p => p.name === storedPrinterName)`: exact-name lookup in
the enumerated device list. -/
def findPrinter (printers : List Printer) (storedPrinterName : String) : Option Printer :=
  printers.find? (fun p => p.name == storedPrinterName)

/-- `PAGE_WIDTH_MICRONS = 80000`: the fixed 80 mm roll width in microns. -/
def PAGE_WIDTH_MICRONS : ℤ := 80000

/-- `PRINTABLE_WIDTH_MM = 72`: effective printable width on the 80 mm roll. -/
def PRINTABLE_WIDTH_MM : ℚ := 72

/-- The hard-coded lower clamp of the computed page height: 120000 microns
(120 mm), from `Math.max(120000, ...)`. -/
def MIN_HEIGHT_MICRONS : ℤ := 120000

/-- `store.get("xOffsetMm") ?? 0`: the configured horizontal nudge in mm,
defaulting to zero when unset. -/
def xOffsetMm (stored : Option ℚ) : ℚ := stored.getD 0

/-- The geometry imposed on `html, body` by the injected `@media print`
overlay (widths and margins in mm; the second `insertCSS` call zeroes the
body padding). -/
structure Overlay where
  widthMm : ℚ
  marginLeftMm : ℚ
  marginRightMm : ℚ
  paddingMm : ℚ
deriving DecidableEq, Repr

/-- The centering overlay of the HTML handler:
`width: 72mm; margin-left: calc(4mm + Xmm); margin-right: 4mm; padding: 0`. -/
def centeringOverlay (xOffset : ℚ) : Overlay :=
  { widthMm := PRINTABLE_WIDTH_MM
    marginLeftMm := 4 + xOffset
    marginRightMm := 4
    paddingMm := 0 }

/-- The page-height computation executed in the rendering context:
`px = Math.ceil(scrollHeight); inches = px / 96; mm = inches * 25.4;`
`Math.max(120000, Math.ceil(mm * 1000))`. -/
def heightMicrons (scrollHeight : ℚ) : ℤ :=
  let px : ℤ := ⌈scrollHeight⌉
  let inches : ℚ := (px : ℚ) / 96
  let mm : ℚ := inches * 25.4
  max MIN_HEIGHT_MICRONS ⌈mm * 1000⌉

/-- A Chromium page size in microns. -/
structure PageSize where
  width : ℤ
  height : ℤ
deriving DecidableEq, Repr

/-- The options object passed to `webContents.print` by the HTML handler. -/
structure PrintJobOptions where
  silent : Bool
  deviceName : String
  printBackground : Bool
  color : Bool
  marginsZero : Bool
  pageSize : PageSize
deriving DecidableEq, Repr

/-- The concrete job options built at the `webContents.print` call: silent,
background graphics on, monochrome, custom zero margins, fixed 80 mm width
and measured height. -/
def jobFor (target : Printer) (scrollHeight : ℚ) : PrintJobOptions :=
  { silent := true
    deviceName := target.name
    printBackground := true
    color := false
    marginsZero := true
    pageSize := { width := PAGE_WIDTH_MICRONS, height := heightMicrons scrollHeight } }

/-- The possible terminal responses of the HTML `/print` handler. -/
inductive HtmlResult where
  | badRequest (error : String)
  | noPrinterConfigured (error : String)
  | printerNotFound (error : String)
  | printed (message : String) (job : PrintJobOptions)
  | printFailed (error : String) (job : PrintJobOptions)
deriving DecidableEq, Repr

/-- The HTTP status code attached to each response of the HTML handler. -/
def htmlStatus : HtmlResult → Nat
  | .badRequest _ => 400
  | .noPrinterConfigured _ => 500
  | .printerNotFound _ => 404
  | .printed _ _ => 200
  | .printFailed _ _ => 500

/-- Whether the handler run opened the hidden render window (`printWindow`):
it is created only after validation and printer resolution succeed. -/
def renderSessionOpened : HtmlResult → Bool
  | .printed _ _ => true
  | .printFailed _ _ => true
  | _ => false

/-- The HTML `/print` handler as a function of the request body field
`html`, the stored printer name, the enumerated device list, the measured
scroll height and the platform print callback outcome
`(cbSuccess, cbFailureReason)`. -/
def htmlHandler (html storedPrinterName : Option String) (printers : List Printer)
    (scrollHeight : ℚ) (cbSuccess : Bool) (cbFailureReason : Option String) : HtmlResult :=
  if isFalsyOpt html then .badRequest "Missing html in request body"
  else if isFalsyOpt storedPrinterName then .noPrinterConfigured "No printer configured."
  else
    let name := storedPrinterName.getD ""
    match findPrinter printers name with
    | none => .printerNotFound ("Printer \"" ++ name ++ "\" not found.")
    | some target =>
      if cbSuccess then .printed "Bill sent to printer successfully" (jobFor target scrollHeight)
      else .printFailed (jsOrStr cbFailureReason "Print failed") (jobFor target scrollHeight)

/-! ## PDF variant (`main.js`) -/

/-- `req.body.printerName || store.get("printerName")`: the printer the PDF
handler dispatches to, preferring a truthy body field over the stored one. -/
def effectivePrinterName (bodyPrinterName : Option String) (stored : String) : String :=
  jsOrStr bodyPrinterName stored

/-- The win32 branch of `silentPrint`: the `webContents.print` callback
resolves on success and rejects with `failureReason || "Print failed"`
otherwise. -/
def silentPrintResult (success : Bool) (failureReason : Option String) :
    Except String Unit :=
  if success then .ok () else .error (jsOrStr failureReason "Print failed")

/-- The anchored data-URL prefix removed by the replace call in `savePDF`. -/
def PDF_PREFIX : List Char := "data:application/pdf;base64,".data

/-- The replace call of `savePDF` with the anchored pdf data-URL regex: the regex is
anchored at the start, so exactly a leading occurrence is removed and any
other occurrence is left in place. -/
def stripPdfDataUrlPrefix (s : List Char) : List Char :=
  if PDF_PREFIX.isPrefixOf s then s.drop PDF_PREFIX.length else s

/-- Membership of a character in the base64 alphabet. -/
def isBase64Char (c : Char) : Bool :=
  decide (65 ≤ c.toNat ∧ c.toNat ≤ 90) || decide (97 ≤ c.toNat ∧ c.toNat ≤ 122) ||
  decide (48 ≤ c.toNat ∧ c.toNat ≤ 57) || c == '+' || c == '/'

/-- The 6-bit value of a base64 alphabet character. -/
def base64Val (c : Char) : Nat :=
  if 65 ≤ c.toNat ∧ c.toNat ≤ 90 then c.toNat - 65
  else if 97 ≤ c.toNat ∧ c.toNat ≤ 122 then c.toNat - 71
  else if 48 ≤ c.toNat ∧ c.toNat ≤ 57 then c.toNat + 4
  else if c = '+' then 62
  else if c = '/' then 63
  else 0

/-- Reassembles bytes from a stream of 6-bit values, four at a time; a
trailing group of three yields two bytes, of two yields one byte, and a
lone trailing value is dropped. -/
def decodeGroups : List Nat → List Nat
  | a :: b :: c :: d :: rest =>
      (a * 4 + b / 16) :: ((b % 16) * 16 + c / 4) :: ((c % 4) * 64 + d) :: decodeGroups rest
  | [a, b, c] => [a * 4 + b / 16, (b % 16) * 16 + c / 4]
  | [a, b] => [a * 4 + b / 16]
  | _ => []

/-- Modelled from the spec: `Buffer.from(s, "base64")` (Node standard
library, not part of the sources of this repository) decodes leniently — it never
throws, characters outside the base64 alphabet (including padding `=`) are
skipped, and an incomplete trailing group is truncated. -/
def bufferFromBase64 (s : List Char) : List Nat :=
  decodeGroups ((s.filter isBase64Char).map base64Val)

/-- `savePDF`: strip the anchored data-URL prefix, decode the remainder as
base64 and return the bytes written to the temporary file. It is total —
every input string produces a (possibly empty) byte sequence. -/
def savePDF (base64Data : List Char) : List Nat :=
  bufferFromBase64 (stripPdfDataUrlPrefix base64Data)

/-- Observable outcome of one run of the PDF `/print` handler: the HTTP
status and error of the response, which device (if any) the job was
dispatched to, and the fate of the temporary file. -/
structure PdfOutcome where
  status : Nat
  error : Option String
  dispatchedTo : Option String
  tempFileCreated : Bool
  tempFileRemains : Bool
  cleanupWarned : Bool
  bytesWritten : List Nat
deriving DecidableEq, Repr

/-- The outcome when `pdfBase64` is missing or empty: the handler throws
`Missing pdfBase64 in request body`, which the surrounding catch converts
into a status-500 response; no temporary file is ever created. -/
def missingPayloadOutcome : PdfOutcome :=
  { status := 500
    error := some "Missing pdfBase64 in request body"
    dispatchedTo := none
    tempFileCreated := false
    tempFileRemains := false
    cleanupWarned := false
    bytesWritten := [] }

/-- The PDF `/print` handler as a function of the body fields, the stored
printer name, the dispatch outcome of `silentPrint` per device name, and
whether `fs.unlinkSync` throws. On dispatch failure control jumps to the
catch block, which responds 500 without unlinking, so the temporary file
remains; the unlink on the success path is wrapped in its own try/catch
whose failure is only logged. -/
def pdfHandler (pdfBase64 : Option (List Char)) (bodyPrinterName : Option String)
    (storedPrinterName : String) (dispatch : String → Except String Unit)
    (unlinkThrows : Bool) : PdfOutcome :=
  match pdfBase64 with
  | none => missingPayloadOutcome
  | some s =>
    if s.isEmpty then missingPayloadOutcome
    else
      let printerName := effectivePrinterName bodyPrinterName storedPrinterName
      let bytes := savePDF s
      match dispatch printerName with
      | .error msg =>
          { status := 500
            error := some msg
            dispatchedTo := some printerName
            tempFileCreated := true
            tempFileRemains := true
            cleanupWarned := false
            bytesWritten := bytes }
      | .ok _ =>
          { status := 200
            error := none
            dispatchedTo := some printerName
            tempFileCreated := true
            tempFileRemains := unlinkThrows
            cleanupWarned := unlinkThrows
            bytesWritten := bytes }

/-! ## Percent encoding of the inline data URL (HTML variant)

The HTML handler loads the payload with
`loadURL("data:text/html;charset=utf-8," + encodeURIComponent(html))`.
`encodeURIComponent` leaves the unreserved characters
`A-Z a-z 0-9 - _ . ! ~ * ( )` and the apostrophe as they are and replaces every other byte of
the UTF-8 encoding by `%` followed by two uppercase hex digits; the data-URL
consumer percent-decodes the remainder after the comma. Both sides are
modelled on UTF-8 byte sequences. -/

/-- The bytes `encodeURIComponent` passes through unescaped. -/
def isUnreservedByte (b : Nat) : Bool :=
  decide (65 ≤ b ∧ b ≤ 90) || decide (97 ≤ b ∧ b ≤ 122) ||
  decide (48 ≤ b ∧ b ≤ 57) || decide (b = 45) || decide (b = 95) ||
  decide (b = 46) || decide (b = 33) || decide (b = 126) || decide (b = 42) ||
  decide (b = 39) || decide (b = 40) || decide (b = 41)

/-- ASCII code of the uppercase hex digit for a value below 16. -/
def hexDigit (n : Nat) : Nat :=
  if n < 10 then 48 + n else 55 + n

/-- Numeric value of an ASCII hex digit (either case), `none` otherwise. -/
def hexVal (c : Nat) : Option Nat :=
  if 48 ≤ c ∧ c ≤ 57 then some (c - 48)
  else if 65 ≤ c ∧ c ≤ 70 then some (c - 55)
  else if 97 ≤ c ∧ c ≤ 102 then some (c - 87)
  else none

/-- `encodeURIComponent` on one byte: unreserved bytes pass through, every
other byte becomes `%` (37) and two hex digits. -/
def encodeByte (b : Nat) : List Nat :=
  if isUnreservedByte b then [b] else [37, hexDigit (b / 16), hexDigit (b % 16)]

/-- `encodeURIComponent` on a UTF-8 byte sequence. -/
def encodeURIComponentBytes : List Nat → List Nat
  | [] => []
  | b :: rest => encodeByte b ++ encodeURIComponentBytes rest

/-- Percent-decoding as performed by the data-URL consumer: `%` followed by
two hex digits yields one byte, any other byte stands for itself, and a
malformed escape fails. -/
def percentDecode : List Nat → Option (List Nat)
  | [] => some []
  | b :: rest =>
    if b = 37 then
      match rest with
      | h :: l :: rest2 =>
        match hexVal h, hexVal l, percentDecode rest2 with
        | some hv, some lv, some tail => some ((16 * hv + lv) :: tail)
        | _, _, _ => none
      | _ => none
    else
      match percentDecode rest with
      | some tail => some (b :: tail)
      | none => none

/-- The UTF-8 bytes of the fixed data-URL prefix `data:text/html;charset=utf-8,`
(all its characters are ASCII). -/
def DATA_URL_PREFIX_BYTES : List Nat := "data:text/html;charset=utf-8,".data.map Char.toNat

/-- The URL built at the `loadURL` call, on UTF-8 bytes: the fixed prefix
followed by the percent-encoded payload. -/
def dataUrlFor (payload : List Nat) : List Nat :=
  DATA_URL_PREFIX_BYTES ++ encodeURIComponentBytes payload

/-! ## Helper lemmas -/

theorem isFalsyOpt_some_eq_false {s : String} (h : s ≠ "") : isFalsyOpt (some s) = false := by
  simp [isFalsyOpt, h]

theorem jsOrStr_some_of_ne {s d : String} (h : s ≠ "") : jsOrStr (some s) d = s := by
  simp [jsOrStr, h]

theorem jsOrStr_of_falsy {r : Option String} {d : String} (h : isFalsyOpt r = true) :
    jsOrStr r d = d := by
  cases r with
  | none => rfl
  | some s =>
    have hs : s = "" := by simpa [isFalsyOpt] using h
    simp [jsOrStr, hs]

theorem htmlHandler_notFound {html stored : Option String} {printers : List Printer}
    (sh : ℚ) (cbS : Bool) (cbR : Option String)
    (hh : isFalsyOpt html = false) (hs : isFalsyOpt stored = false)
    (hfind : findPrinter printers (stored.getD "") = none) :
    htmlHandler html stored printers sh cbS cbR
      = .printerNotFound ("Printer \"" ++ stored.getD "" ++ "\" not found.") := by
  unfold htmlHandler
  simp [hh, hs, hfind]

/-! ## C1 -/

/-- C1, counterexample: with the configured name `XP-80C` absent from the
device list but a device flagged as OS default present, the HTML handler
does not fall back to the default — it answers 404 `PrinterNotFound`. The
claimed `DefaultFallback` resolution does not exist in the code. -/
theorem c1_counterexample :
    (∃ p ∈ [Printer.mk "Default-Device" true], p.isDefault = true) ∧
    htmlHandler (some "<p>x</p>") (some "XP-80C") [Printer.mk "Default-Device" true] 100 true none
      = .printerNotFound "Printer \"XP-80C\" not found." ∧
    htmlStatus (htmlHandler (some "<p>x</p>") (some "XP-80C")
      [Printer.mk "Default-Device" true] 100 true none) = 404 := by
  refine ⟨⟨Printer.mk "Default-Device" true, by simp, rfl⟩, by rfl, by rfl⟩

/-- C1, amended: whenever the configured printer name has no exact match in
the enumerated device list, resolution fails with 404 `PrinterNotFound` —
even when at least one enumerated device is flagged as the OS default. No
default-fallback path exists; the render window is never opened. -/
theorem c1_no_default_fallback (html stored : Option String) (printers : List Printer)
    (sh : ℚ) (cbS : Bool) (cbR : Option String)
    (hh : isFalsyOpt html = false) (hs : isFalsyOpt stored = false)
    (hfind : findPrinter printers (stored.getD "") = none)
    (hdef : ∃ p ∈ printers, p.isDefault = true) :
    htmlHandler html stored printers sh cbS cbR
      = .printerNotFound ("Printer \"" ++ stored.getD "" ++ "\" not found.") ∧
    htmlStatus (htmlHandler html stored printers sh cbS cbR) = 404 ∧
    renderSessionOpened (htmlHandler html stored printers sh cbS cbR) = false := by
  have h := htmlHandler_notFound sh cbS cbR hh hs hfind
  rw [h]
  exact ⟨rfl, rfl, rfl⟩

/-- C1, witness for the amended statement. -/
theorem c1_no_default_fallback_witness :
    htmlStatus (htmlHandler (some "<p>x</p>") (some "XP-80C")
      [Printer.mk "Other" true] 0 true none) = 404 :=
  (c1_no_default_fallback (some "<p>x</p>") (some "XP-80C") [Printer.mk "Other" true]
    0 true none rfl rfl rfl ⟨Printer.mk "Other" true, by simp, rfl⟩).2.1

/-! ## C4 -/

/-- C4: when the device list has neither an exact match for the configured
printer name nor any default-flagged device, the HTML handler fails with
404 `PrinterNotFound` and the error message names the requested printer. -/
theorem c4_not_found_names_printer (html : Option String) (printerName : String)
    (printers : List Printer) (sh : ℚ) (cbS : Bool) (cbR : Option String)
    (hh : isFalsyOpt html = false) (hn : printerName ≠ "")
    (hfind : findPrinter printers printerName = none)
    (hnodef : ∀ p ∈ printers, p.isDefault = false) :
    htmlHandler html (some printerName) printers sh cbS cbR
      = .printerNotFound ("Printer \"" ++ printerName ++ "\" not found.") ∧
    htmlStatus (htmlHandler html (some printerName) printers sh cbS cbR) = 404 ∧
    ∃ pre post, "Printer \"" ++ printerName ++ "\" not found." = pre ++ printerName ++ post := by
  have hs : isFalsyOpt (some printerName) = false := isFalsyOpt_some_eq_false hn
  have hfind' : findPrinter printers ((some printerName).getD "") = none := hfind
  have h := htmlHandler_notFound sh cbS cbR hh hs hfind'
  rw [h]
  exact ⟨rfl, rfl, "Printer \"", "\" not found.", rfl⟩

/-- C4, witness. -/
theorem c4_not_found_names_printer_witness :
    htmlHandler (some "<p>x</p>") (some "XP-80C") [Printer.mk "Other" false] 0 true none
      = .printerNotFound ("Printer \"" ++ "XP-80C" ++ "\" not found.") :=
  (c4_not_found_names_printer (some "<p>x</p>") "XP-80C" [Printer.mk "Other" false]
    0 true none rfl (by decide) rfl (by simp)).1

/-! ## C3 -/

/-- C3, counterexample: the PDF handler answers a request lacking the
payload with HTTP status 500, not 400 — the missing-payload error is thrown
and swallowed by the generic catch block. -/
theorem c3_counterexample :
    (pdfHandler none none "XP-80C" (fun _ => Except.ok ()) false).status = 500 ∧
    ¬ (pdfHandler none none "XP-80C" (fun _ => Except.ok ()) false).status = 400 := by
  exact ⟨rfl, by decide⟩

/-- C3, amended: on a request lacking the document payload, the HTML
handler fails fast with 400 `BadRequest` and never opens a render window,
while the PDF handler reports the missing payload with HTTP status 500; in
both variants no temporary file is created (the HTML variant creates none at
all, and the PDF handler returns before `savePDF`). -/
theorem c3_missing_payload (html : Option String) (hh : isFalsyOpt html = true)
    (stored : Option String) (printers : List Printer) (sh : ℚ) (cbS : Bool)
    (cbR : Option String) (bp : Option String) (st : String)
    (d : String → Except String Unit) (u : Bool) :
    htmlHandler html stored printers sh cbS cbR
      = .badRequest "Missing html in request body" ∧
    htmlStatus (htmlHandler html stored printers sh cbS cbR) = 400 ∧
    renderSessionOpened (htmlHandler html stored printers sh cbS cbR) = false ∧
    pdfHandler none bp st d u = missingPayloadOutcome ∧
    (pdfHandler none bp st d u).status = 500 ∧
    (pdfHandler none bp st d u).tempFileCreated = false := by
  have h : htmlHandler html stored printers sh cbS cbR
      = .badRequest "Missing html in request body" := by
    unfold htmlHandler
    simp [hh]
  rw [h]
  exact ⟨rfl, rfl, rfl, rfl, rfl, rfl⟩

/-- C3, witness for the amended statement. -/
theorem c3_missing_payload_witness :
    htmlStatus (htmlHandler none (some "XP-80C") [] 0 true none) = 400 :=
  (c3_missing_payload none rfl (some "XP-80C") [] 0 true none none "XP-80C"
    (fun _ => Except.ok ()) false).2.1

/-! ## C2 -/

/-- C2, counterexample: on the dispatch-failure exit path of the PDF
handler the temporary file is created but never removed — `fs.unlinkSync`
is reached only after a successful `silentPrint`, and the catch block
responds 500 without cleanup. -/
theorem c2_counterexample :
    (pdfHandler (some "aGk=".data) none "XP-80C"
      (fun _ => Except.error "printer offline") false).tempFileCreated = true ∧
    (pdfHandler (some "aGk=".data) none "XP-80C"
      (fun _ => Except.error "printer offline") false).tempFileRemains = true ∧
    (pdfHandler (some "aGk=".data) none "XP-80C"
      (fun _ => Except.error "printer offline") false).status = 500 := by
  exact ⟨rfl, rfl, rfl⟩

/-- C2, amended: the temporary PDF file is removed exactly when dispatch
succeeds and the removal call itself does not throw; a removal failure is
only logged (the request still reports success with status 200), while on
dispatch failure or exception the file remains on disk. -/
theorem c2_cleanup_success_path_only (s : List Char) (hs : s ≠ []) (bp : Option String)
    (st : String) (d : String → Except String Unit) (u : Bool) :
    ((pdfHandler (some s) bp st d u).tempFileRemains = false ↔
      d (effectivePrinterName bp st) = Except.ok () ∧ u = false) ∧
    (d (effectivePrinterName bp st) = Except.ok () →
      (pdfHandler (some s) bp st d u).status = 200 ∧
      (pdfHandler (some s) bp st d u).cleanupWarned = u) := by
  have hempty : s.isEmpty = false := by simp [hs]
  unfold pdfHandler
  cases hd : d (effectivePrinterName bp st) with
  | error msg => simp [hempty, hd]
  | ok v => simp [hempty, hd]

/-- C2, witness for the amended statement. -/
theorem c2_cleanup_success_path_only_witness :
    (pdfHandler (some "aGk=".data) none "XP-80C"
      (fun _ => Except.ok ()) false).tempFileRemains = false :=
  (c2_cleanup_success_path_only "aGk=".data (by decide) none "XP-80C"
    (fun _ => Except.ok ()) false).1.mpr ⟨rfl, rfl⟩

/-! ## C5 -/

theorem heightMicrons_eq_spec (sh : ℚ) :
    heightMicrons sh = max MIN_HEIGHT_MICRONS ⌈((⌈sh⌉ : ℚ) * 25400) / 96⌉ := by
  unfold heightMicrons
  ring_nf

/-- C5: the page size handed to `webContents.print` has fixed width 80000
microns (80 mm) and height the measured scroll height converted from CSS
pixels to microns at 96 px per inch and 25.4 mm per inch, rounded up and
clamped below by the 120000-micron minimum medium length. -/
theorem c5_page_size (target : Printer) (sh : ℚ) :
    (jobFor target sh).pageSize.width = 80000 ∧
    (jobFor target sh).pageSize.height = max 120000 ⌈((⌈sh⌉ : ℚ) * 25400) / 96⌉ ∧
    120000 ≤ (jobFor target sh).pageSize.height ∧
    (jobFor target sh).silent = true ∧
    (jobFor target sh).deviceName = target.name := by
  refine ⟨rfl, ?_, ?_, rfl, rfl⟩
  · exact heightMicrons_eq_spec sh
  · show (120000 : ℤ) ≤ heightMicrons sh
    rw [heightMicrons_eq_spec sh]
    exact le_max_left _ _

/-! ## C6 -/

/-- C6: on the 80 mm roll with 72 mm printable width, the injected overlay
fixes the content width to 72 mm; with no configured horizontal offset the
margins are exactly 4 mm on each side (filling the 80 mm total width), and a
configured offset of `k` mm moves the left margin — hence the content — by
exactly `k` mm while the width and right margin stay unchanged. -/
theorem c6_overlay_centering :
    (centeringOverlay (xOffsetMm none)).widthMm = 72 ∧
    (centeringOverlay (xOffsetMm none)).marginLeftMm = 4 ∧
    (centeringOverlay (xOffsetMm none)).marginRightMm = 4 ∧
    (centeringOverlay (xOffsetMm none)).marginLeftMm +
      (centeringOverlay (xOffsetMm none)).widthMm +
      (centeringOverlay (xOffsetMm none)).marginRightMm = 80 ∧
    (centeringOverlay (xOffsetMm none)).paddingMm = 0 ∧
    ∀ k : ℚ,
      (centeringOverlay (xOffsetMm (some k))).marginLeftMm
        = (centeringOverlay (xOffsetMm none)).marginLeftMm + k ∧
      (centeringOverlay (xOffsetMm (some k))).widthMm = 72 ∧
      (centeringOverlay (xOffsetMm (some k))).marginRightMm = 4 := by
  refine ⟨rfl, ?_, rfl, ?_, rfl, ?_⟩
  · show (4 : ℚ) + (0 : ℚ) = 4
    norm_num
  · show ((4 : ℚ) + 0) + PRINTABLE_WIDTH_MM + 4 = 80
    norm_num [PRINTABLE_WIDTH_MM]
  · intro k
    refine ⟨?_, rfl, rfl⟩
    show (4 : ℚ) + k = 4 + 0 + k
    ring

/-! ## C7 -/

/-- C7: a print completion callback reporting failure with an absent or
empty reason is normalized to the generic message `Print failed` — in the
win32 `silentPrint` rejection and in the HTML handler response alike — and
the failure reason surfaced to the caller is never the blank string. -/
theorem c7_failure_reason_never_blank (r : Option String) (hr : isFalsyOpt r = true) :
    jsOrStr r "Print failed" = "Print failed" ∧
    silentPrintResult false r = Except.error "Print failed" ∧
    (∀ r' : Option String, jsOrStr r' "Print failed" ≠ "") ∧
    (∀ (html stored : Option String) (printers : List Printer) (sh : ℚ),
      isFalsyOpt html = false → isFalsyOpt stored = false →
      ∀ target, findPrinter printers (stored.getD "") = some target →
        htmlHandler html stored printers sh false r
          = .printFailed "Print failed" (jobFor target sh)) := by
  have hnorm : jsOrStr r "Print failed" = "Print failed" := jsOrStr_of_falsy hr
  refine ⟨hnorm, ?_, ?_, ?_⟩
  · simp [silentPrintResult, hnorm]
  · intro r'
    cases r' with
    | none => decide
    | some s =>
      by_cases hse : s = ""
      · simp [jsOrStr, hse]
      · simp [jsOrStr, hse]
  · intro html stored printers sh hh hs target hfind
    unfold htmlHandler
    simp [hh, hs, hfind, hnorm]

/-- C7, witness. -/
theorem c7_failure_reason_never_blank_witness :
    silentPrintResult false (some "") = Except.error "Print failed" :=
  (c7_failure_reason_never_blank (some "") rfl).2.1

/-! ## C9 -/

/-- C9, counterexample: a request that supplies `printerName` as the empty
string (present, not omitted) is still dispatched to the configured printer
from the settings store — `printerName || store.get("printerName")` treats
every falsy value, not only an omitted field, as absent. -/
theorem c9_counterexample :
    (some "" : Option String) ≠ none ∧
    effectivePrinterName (some "") "XP-80C" = "XP-80C" ∧
    (pdfHandler (some "aGk=".data) (some "") "XP-80C"
      (fun _ => Except.ok ()) false).dispatchedTo = some "XP-80C" := by
  exact ⟨by simp, rfl, rfl⟩

/-- C9, amended: the PDF handler dispatches to the body-supplied
`printerName` whenever it is non-empty, and falls back to the configured
printer name from the settings store when the field is omitted or empty. -/
theorem c9_printer_override (s : List Char) (hs : s ≠ []) (bp : Option String)
    (st : String) (d : String → Except String Unit) (u : Bool) :
    (∀ n : String, n ≠ "" → effectivePrinterName (some n) st = n) ∧
    effectivePrinterName none st = st ∧
    effectivePrinterName (some "") st = st ∧
    (pdfHandler (some s) bp st d u).dispatchedTo
      = some (effectivePrinterName bp st) := by
  have hempty : s.isEmpty = false := by simp [hs]
  refine ⟨fun n hn => jsOrStr_some_of_ne hn, rfl, rfl, ?_⟩
  unfold pdfHandler
  cases hd : d (effectivePrinterName bp st) with
  | error msg => simp [hempty, hd]
  | ok v => simp [hempty, hd]

/-- C9, witness for the amended statement. -/
theorem c9_printer_override_witness :
    (pdfHandler (some "aGk=".data) (some "Kitchen") "XP-80C"
      (fun _ => Except.ok ()) false).dispatchedTo
      = some (effectivePrinterName (some "Kitchen") "XP-80C") :=
  (c9_printer_override "aGk=".data (by decide) (some "Kitchen") "XP-80C"
    (fun _ => Except.ok ()) false).2.2.2

/-! ## C10 -/

/-- C10: `savePDF` is total — the anchored data-URL prefix is stripped
exactly when it occurs at the start of the input, the lenient base64 decode
never raises, and bytes (possibly empty or garbage) are always written — so
a non-empty malformed-base64 payload is never rejected with status 400 but
proceeds to the print step; decoding the all-invalid payload `!!!` writes an
empty file. -/
theorem c10_savePDF_total (t : List Char) (ht : t ≠ []) (bp : Option String)
    (st : String) (d : String → Except String Unit) (u : Bool) :
    (∀ r : List Char, stripPdfDataUrlPrefix (PDF_PREFIX ++ r) = r) ∧
    (∀ s : List Char, PDF_PREFIX.isPrefixOf s = false → stripPdfDataUrlPrefix s = s) ∧
    (pdfHandler (some t) bp st d u).tempFileCreated = true ∧
    (pdfHandler (some t) bp st d u).status ≠ 400 ∧
    (pdfHandler (some t) bp st d u).bytesWritten
      = bufferFromBase64 (stripPdfDataUrlPrefix t) ∧
    savePDF "!!!".data = [] := by
  have hempty : t.isEmpty = false := by simp [ht]
  refine ⟨?_, ?_, ?_, ?_, ?_, by decide⟩
  · intro r
    unfold stripPdfDataUrlPrefix
    rw [if_pos (by simp), List.drop_left]
  · intro s hnp
    unfold stripPdfDataUrlPrefix
    rw [if_neg (by simp [hnp])]
  · unfold pdfHandler
    cases hd : d (effectivePrinterName bp st) with
    | error msg => simp [hempty, hd]
    | ok v => simp [hempty, hd]
  · unfold pdfHandler
    cases hd : d (effectivePrinterName bp st) with
    | error msg => simp [hempty, hd]
    | ok v => simp [hempty, hd]
  · unfold pdfHandler
    cases hd : d (effectivePrinterName bp st) with
    | error msg => simp [hempty, hd, savePDF]
    | ok v => simp [hempty, hd, savePDF]

/-- C10, witness. -/
theorem c10_savePDF_total_witness :
    savePDF "!!!".data = [] ∧
    (pdfHandler (some "not base64 at all!".data) none "XP-80C"
      (fun _ => Except.ok ()) false).tempFileCreated = true := by
  have h := c10_savePDF_total "not base64 at all!".data (by decide) none "XP-80C"
    (fun _ => Except.ok ()) false
  exact ⟨h.2.2.2.2.2, h.2.2.1⟩

/-! ## C8 -/

theorem hexVal_hexDigit (n : Nat) (h : n < 16) : hexVal (hexDigit n) = some n := by
  interval_cases n <;> rfl

theorem unreserved_ne_percent {b : Nat} (h : isUnreservedByte b = true) : b ≠ 37 := by
  intro hb
  rw [hb] at h
  exact absurd h (by decide)

theorem percentDecode_cons_of_ne (b : Nat) (hb : ¬ b = 37) (rest : List Nat) :
    percentDecode (b :: rest) = (percentDecode rest).map (b :: ·) := by
  rcases rest with _ | ⟨h, _ | ⟨l, rest2⟩⟩
  · rw [percentDecode.eq_3 b [] (by simp), if_neg hb]
    rfl
  · rw [percentDecode.eq_3 b [h] (by simp), if_neg hb]
    cases percentDecode [h] <;> rfl
  · rw [percentDecode.eq_2, if_neg hb]
    cases percentDecode (h :: l :: rest2) <;> rfl

theorem percentDecode_escape (b : Nat) (hb : b < 256) (rest : List Nat) :
    percentDecode (37 :: hexDigit (b / 16) :: hexDigit (b % 16) :: rest)
      = (percentDecode rest).map (b :: ·) := by
  have h1 : hexVal (hexDigit (b / 16)) = some (b / 16) := hexVal_hexDigit _ (by omega)
  have h2 : hexVal (hexDigit (b % 16)) = some (b % 16) := hexVal_hexDigit _ (by omega)
  rw [percentDecode, if_pos rfl]
  rw [h1, h2]
  have hb' : 16 * (b / 16) + b % 16 = b := by omega
  cases percentDecode rest <;> simp [hb']

theorem encode_decode_roundtrip :
    ∀ s : List Nat, (∀ b ∈ s, b < 256) →
      percentDecode (encodeURIComponentBytes s) = some s := by
  intro s
  induction s with
  | nil => intro _; rfl
  | cons b rest ih =>
    intro hs
    have hb : b < 256 := hs b (List.mem_cons_self b rest)
    have ihr := ih (fun x hx => hs x (List.mem_cons_of_mem b hx))
    show percentDecode (encodeByte b ++ encodeURIComponentBytes rest) = some (b :: rest)
    by_cases hu : isUnreservedByte b = true
    · have hb37 := unreserved_ne_percent hu
      rw [encodeByte, if_pos hu, List.cons_append, List.nil_append,
        percentDecode_cons_of_ne b hb37, ihr]
      rfl
    · rw [encodeByte, if_neg hu, List.cons_append, List.cons_append, List.cons_append,
        List.nil_append, percentDecode_escape b hb, ihr]
      rfl

/-- C8: percent-encoding is lossless — for every payload (as its UTF-8 byte
sequence), percent-decoding the part of the constructed
`data:text/html;charset=utf-8,` URL after the fixed prefix recovers the
payload bytes exactly, so the document materialized in the rendering
context is byte-for-byte the submitted payload. -/
theorem c8_data_url_roundtrip (s : List Nat) (hs : ∀ b ∈ s, b < 256) :
    percentDecode ((dataUrlFor s).drop DATA_URL_PREFIX_BYTES.length) = some s ∧
    percentDecode (encodeURIComponentBytes s) = some s := by
  have h := encode_decode_roundtrip s hs
  constructor
  · unfold dataUrlFor
    rw [List.drop_left]
    exact h
  · exact h

/-- C8, witness: the payload bytes `% A é` (UTF-8 `37 32 65 195 169`)
survive the data-URL round trip. -/
theorem c8_data_url_roundtrip_witness :
    percentDecode (encodeURIComponentBytes [37, 32, 65, 195, 169])
      = some [37, 32, 65, 195, 169] :=
  (c8_data_url_roundtrip [37, 32, 65, 195, 169] (by decide)).2

end SilentPrinting
